import Mathlib

/-!
Verification of the outbound request orchestration and response-normalization
layer of the sak-ai-studio-demo servers.

The JavaScript sources (`server.js` and the unnamed sibling variants) are
shallowly embedded below: each route handler becomes a pure Lean function
from its request body and an explicit environment (the outcomes of the
outbound provider calls) to the JSON envelope it responds with, paired with
the ordered trace of outbound calls it performed.  Loosely typed provider
payloads are modelled by a small JSON value type.
-/

namespace Sak

/-- JSON value tree, modelling the loosely typed bodies the servers exchange. -/
inductive Json where
  | null
  | bool (b : Bool)
  | num (n : Int)
  | str (s : String)
  | arr (elems : List Json)
  | obj (fields : List (String × Json))

/-- Optional member access `j?.name`: `none` on non-objects or absent keys. -/
def Json.getField : Json → String → Option Json
  | .obj fields, name => fields.lookup name
  | _, _ => none

/-- Optional index access `j?.[i]`: `none` on non-arrays or out-of-range. -/
def Json.getIdx : Json → Nat → Option Json
  | .arr elems, i => elems.get? i
  | _, _ => none

/-- View a JSON value as an array (the `Array.isArray` guards). -/
def Json.asArr : Json → Option (List Json)
  | .arr elems => some elems
  | _ => none

/-- The string a `x || ""`-style access yields: the string value when the
optional chain produced one, `""` otherwise. -/
def jstrOr (o : Option Json) : String :=
  match o with
  | some (.str s) => s
  | _ => ""

/-- JS `x || d` defaulting for string-typed request fields: absent or empty
strings fall back to the default. -/
def jsOr (o : Option String) (d : String) : String :=
  match o with
  | some s => if s = "" then d else s
  | none => d

/-- JS `s.slice(0, n)`: the first `n` characters of `s`. -/
def sliceStr (s : String) (n : Nat) : String :=
  String.mk (s.data.take n)

/-- JS `s.trim()`: strip leading and trailing whitespace. -/
def trimStr (s : String) : String :=
  String.mk (((s.data.dropWhile Char.isWhitespace).reverse.dropWhile
      Char.isWhitespace).reverse)

/-- JS `s.toLowerCase()` (ASCII model). -/
def toLowerStr (s : String) : String := String.mk (s.data.map Char.toLower)

/-- JS `s.toUpperCase()` (ASCII model). -/
def toUpperStr (s : String) : String := String.mk (s.data.map Char.toUpper)

/-- Whether the first character list starts the second one. -/
def startsWithCh : List Char → List Char → Bool
  | [], _ => true
  | _ :: _, [] => false
  | a :: as, b :: bs => (a = b) && startsWithCh as bs

/-- Whether the first character list occurs contiguously in the second. -/
def occursIn (needle : List Char) : List Char → Bool
  | [] => needle.isEmpty
  | c :: rest => startsWithCh needle (c :: rest) || occursIn needle rest

/-- JS `hay.includes(needle)`: substring containment. -/
def containsSubstr (hay needle : String) : Bool :=
  occursIn needle.data hay.data

/-! ## Provider Client: `fetchJson` (server.js lines 32-49) -/

/-- An HTTP response as `fetchJson` observes it.  `parsed` models the outcome
of `JSON.parse text`: `some` the parsed tree when `text` is valid JSON,
`none` when it is not. -/
structure HttpResponse where
  ok : Bool
  status : Nat
  contentType : Option String
  text : String
  parsed : Option Json

/-- How a call to `fetchJson` finishes: the guarded bounded-snippet error, an
unguarded `JSON.parse` exception escaping the function, the provider-error
throw, or a parsed body. -/
inductive FetchResult where
  | thrownNonJson (msg : String)
  | thrownParse
  | thrownProvider (msg : String)
  | ok (data : Json)

/-- The error message used when the parsed body reports failure:
`data?.error?.message || "Request failed (status)"`. -/
def providerErrMsg (data : Json) (status : Nat) : String :=
  let m := jstrOr ((data.getField "error").bind (·.getField "message"))
  if m = "" then "Request failed (" ++ toString status ++ ")" else m

/-- server.js `fetchJson`: reads the body as text; when the content type does
not declare JSON, throws the bounded-snippet error; otherwise runs
`JSON.parse` (whose failure escapes un-caught), then checks `r.ok`. -/
def fetchJson (r : HttpResponse) : FetchResult :=
  let ct := toLowerStr (r.contentType.getD "")
  if ¬ (containsSubstr ct "application/json" = true) then
    .thrownNonJson ("Non-JSON response (" ++ toString r.status ++ "). " ++ sliceStr r.text 260)
  else
    match r.parsed with
    | none => .thrownParse
    | some data =>
      if ¬ (r.ok = true) then .thrownProvider (providerErrMsg data r.status)
      else .ok data

/-! ## Prompt normalization (server.js lines 25-30) -/

/-- One step of `replace(/\s+/g, " ")`: collapse each maximal whitespace run
to a single space. -/
def squeezeWs : List Char → List Char
  | [] => []
  | [c] => if c.isWhitespace then [' '] else [c]
  | c1 :: c2 :: rest =>
    if c1.isWhitespace && c2.isWhitespace then squeezeWs (c2 :: rest)
    else (if c1.isWhitespace then ' ' else c1) :: squeezeWs (c2 :: rest)

/-- server.js `normalizePrompt`: trim, collapse interior whitespace, trim,
then cap at `maxLen` characters. -/
def normalizePrompt (raw : String) (maxLen : Nat) : String :=
  let s := trimStr raw
  let s := trimStr (String.mk (squeezeWs s.data))
  sliceStr s maxLen

/-! ## Response Normalizer: chat reply and image payload extraction -/

/-- `p?.text || ""` on a single part. -/
def partText (p : Json) : String := jstrOr (p.getField "text")

/-- The optional chain `data?.candidates?.[0]?.content?.parts`, landing on an
array of parts. -/
def chainParts (data : Json) : Option (List Json) :=
  ((((data.getField "candidates").bind (·.getIdx 0)).bind
      (·.getField "content")).bind (·.getField "parts")).bind Json.asArr

/-- server.js /chat reply extraction (lines 142-146):
`data?.candidates?.[0]?.content?.parts?.map(p => p?.text || "").join("").trim() || "No response"`. -/
def extractReply (data : Json) : String :=
  match chainParts data with
  | none => "No response"
  | some ps =>
    let s := trimStr (String.join (ps.map partText))
    if s = "" then "No response" else s

/-- Modelled from the spec words of C5 ("the concatenation, in document
order, of all text fragments found along the candidates/content/parts
paths"): joins the text fragments of EVERY candidate, not just the first. -/
def specAllFragments (data : Json) : String :=
  match (data.getField "candidates").bind Json.asArr with
  | none => ""
  | some cands =>
    String.join (cands.map (fun c =>
      match (((c.getField "content").bind (·.getField "parts")).bind Json.asArr) with
      | none => ""
      | some ps => String.join (ps.map partText)))

/-- The rewritten-prompt text extraction inside `rewriteImagePrompt`
(server.js lines 78-79): same chain as the chat reply, but defaulting to
`""` instead of the sentinel. -/
def rewriteText (data : Json) : String :=
  match chainParts data with
  | none => ""
  | some ps => trimStr (String.join (ps.map partText))

/-- server.js `extractImageB64` (lines 84-92): probe four known field names
under `predictions[0]`, first truthy string wins, else `""`. -/
def extractImageB64 (data : Json) : String :=
  let p0 := (data.getField "predictions").bind (·.getIdx 0)
  let s1 := jstrOr (p0.bind (·.getField "bytesBase64Encoded"))
  if s1 ≠ "" then s1 else
  let s2 := jstrOr ((p0.bind (·.getField "image")).bind (·.getField "bytesBase64Encoded"))
  if s2 ≠ "" then s2 else
  let s3 := jstrOr (p0.bind (·.getField "imageBytes"))
  if s3 ≠ "" then s3 else
  let s4 := jstrOr ((p0.bind (·.getField "image")).bind (·.getField "imageBytes"))
  if s4 ≠ "" then s4 else ""

/-! ## /chat handler (server.js lines 107-152) -/

structure ChatConfig where
  geminiKey : String
  chatModel : String

structure HistItem where
  role : Option String
  text : Option String

structure ChatBody where
  message : Option String
  history : Option (List HistItem)

/-- One entry of the outbound `contents` array: role plus the single text
part the servers build. -/
structure Content where
  role : String
  text : String
deriving DecidableEq

/-- The outbound generateContent call: which model the URL names and the
contents the body carries. -/
structure ChatCall where
  model : String
  contents : List Content
deriving DecidableEq

structure ChatReply where
  reply : String
deriving DecidableEq

/-- JS `history.slice(-10)`: the last (up to) ten entries. -/
def lastTen (hist : List HistItem) : List HistItem :=
  hist.drop (hist.length - 10)

/-- The `contents` built by the /chat handler: mapped history entries with
empty texts skipped, then the user turn. -/
def buildContents (hist : List HistItem) (userMessage : String) : List Content :=
  let mapped := (lastTen hist).filterMap (fun h =>
    let role := if h.role = some "user" then "user" else "model"
    let text := trimStr (h.text.getD "")
    if text = "" then none else some ⟨role, text⟩)
  mapped ++ [⟨"user", userMessage⟩]

/-- server.js /chat handler: empty-message and missing-key short circuits,
one generateContent call through `fetchJson` (its outcome supplied by
`env`), reply extraction, catch-all turning a throw into a reply.  Returns
the response envelope and the trace of outbound calls. -/
def chatHandler (cfg : ChatConfig) (body : ChatBody)
    (env : ChatCall → Except String Json) : ChatReply × List ChatCall :=
  let userMessage := trimStr (body.message.getD "")
  let history := body.history.getD []
  if userMessage = "" then (⟨"Please type a message."⟩, [])
  else if cfg.geminiKey = "" then (⟨"Missing GEMINI_KEY in server variables."⟩, [])
  else
    let call : ChatCall := ⟨cfg.chatModel, buildContents history userMessage⟩
    match env call with
    | .error e => (⟨"Server error: " ++ e⟩, [call])
    | .ok data => (⟨extractReply data⟩, [call])

/-! ## /image handler (server.js lines 229-287) -/

structure ImageConfig where
  geminiKey : String

structure ImageBody where
  prompt : Option String
  aspectRatio : Option String

/-- Outbound calls the /image handler can make: an Imagen predict call with
a given prompt, or the secondary generateContent call rewriting the long
prompt. -/
inductive ImgCall where
  | imagen (p : String)
  | rewriteReq (longP : String)
deriving DecidableEq

structure ImageOut where
  imageDataUrl : String
  error : Option String
deriving DecidableEq

/-- The no-media error message of the /image handler. -/
def noMediaMsg : String :=
  "No image data returned. Try simpler prompt or remove sensitive words (child/teen/girl/weapon/blood etc.)."

/-- server.js `rewriteImagePrompt`: one generateContent call (outcome from
`env`), chat-style text extraction defaulting to `""`, then
`normalizePrompt(shortText, 220)`. -/
def rewriteImagePrompt (env : String → Except String Json)
    (longPrompt : String) : Except String String :=
  match env longPrompt with
  | .error e => .error e
  | .ok data => .ok (normalizePrompt (rewriteText data) 220)

/-- server.js /image handler: key check, prompt normalization and emptiness
check, first Imagen attempt, on missing payload one rewrite plus exactly one
more Imagen attempt, catch-all for thrown fetch errors.  `synthEnv` keys the
Imagen outcome by the prompt sent, `rwEnv` the rewrite outcome by the long
prompt. -/
def imageHandler (cfg : ImageConfig) (body : ImageBody)
    (synthEnv : String → Except String Json)
    (rwEnv : String → Except String Json) : ImageOut × List ImgCall :=
  if cfg.geminiKey = "" then
    (⟨"", some "Missing GEMINI_KEY in server variables."⟩, [])
  else
    let prompt := normalizePrompt (body.prompt.getD "") 900
    if prompt = "" then (⟨"", some "Please type a prompt."⟩, [])
    else
      match synthEnv prompt with
      | .error e => (⟨"", some ("Image error: " ++ e)⟩, [.imagen prompt])
      | .ok d1 =>
        let b1 := extractImageB64 d1
        if b1 ≠ "" then
          (⟨"data:image/png;base64," ++ b1, none⟩, [.imagen prompt])
        else
          match rewriteImagePrompt rwEnv prompt with
          | .error e =>
            (⟨"", some ("Image error: " ++ e)⟩, [.imagen prompt, .rewriteReq prompt])
          | .ok shortPrompt =>
            match synthEnv shortPrompt with
            | .error e =>
              (⟨"", some ("Image error: " ++ e)⟩,
               [.imagen prompt, .rewriteReq prompt, .imagen shortPrompt])
            | .ok d2 =>
              let b2 := extractImageB64 d2
              if b2 ≠ "" then
                (⟨"data:image/png;base64," ++ b2, none⟩,
                 [.imagen prompt, .rewriteReq prompt, .imagen shortPrompt])
              else
                (⟨"", some noMediaMsg⟩,
                 [.imagen prompt, .rewriteReq prompt, .imagen shortPrompt])

/-! ## /tts voice selection and handler (server.js lines 154-227) -/

/-- A decoded entry of the provider voice catalog. -/
structure Voice where
  name : String
  languageCodes : List String
  ssmlGender : String
deriving DecidableEq

/-- The premium-tier naming test `/Neural2|Wavenet|WaveNet/i.test(name)`:
case-insensitive substring match. -/
def isNeural (name : String) : Bool :=
  containsSubstr (toLowerStr name) "neural2" || containsSubstr (toLowerStr name) "wavenet"

/-- `voices.filter(v => (v.languageCodes || []).includes(languageCode))`. -/
def voicesByLang (voices : List Voice) (languageCode : String) : List Voice :=
  voices.filter (fun v => v.languageCodes.contains languageCode)

/-- `byLang.filter(v => String(v.ssmlGender || "").toUpperCase() === gender)`. -/
def voicesByLangGender (voices : List Voice) (languageCode gender : String) : List Voice :=
  (voicesByLang voices languageCode).filter (fun v => toUpperStr v.ssmlGender = gender)

/-- `arr.find(v => isNeural(v.name)) || arr[0]`. -/
def preferNeural (arr : List Voice) : Option Voice :=
  (arr.find? (fun v => isNeural v.name)).orElse (fun _ => arr.head?)

/-- `arr.find(v => !isNeural(v.name)) || arr[0]`. -/
def preferStandard (arr : List Voice) : Option Voice :=
  (arr.find? (fun v => ! isNeural v.name)).orElse (fun _ => arr.head?)

/-- The voice chosen by the /tts handler (server.js lines 184-187): standard
or neural preference applied to the language+gender matches, else the
language matches, else the whole catalog. -/
def chooseVoice (voiceType gender languageCode : String)
    (voices : List Voice) : Option Voice :=
  let byLang := voicesByLang voices languageCode
  let byLangGender := voicesByLangGender voices languageCode gender
  if voiceType = "standard" then
    ((preferStandard byLangGender).orElse (fun _ => preferStandard byLang)).orElse
      (fun _ => preferStandard voices)
  else
    ((preferNeural byLangGender).orElse (fun _ => preferNeural byLang)).orElse
      (fun _ => preferNeural voices)

structure TtsBody where
  text : Option String
  languageCode : Option String
  gender : Option String
  voiceType : Option String

/-- The synthesize request body the /tts handler sends (the fixed
audioConfig is omitted). -/
structure SynthReq where
  text : String
  languageCode : String
  name : String
  ssmlGender : String
deriving DecidableEq

/-- Outbound calls of the /tts handler: the voice listing and the synthesis
request. -/
inductive TtsCall where
  | listVoices
  | synthesize (req : SynthReq)
deriving DecidableEq

structure TtsOut where
  audioUrl : String
  error : Option String
  voiceName : Option String
deriving DecidableEq

/-- server.js /tts handler.  `voicesEnv` is the outcome of the
`fetchJson(voicesUrl)` call with the catalog already decoded into `Voice`
records (the `Array.isArray` guard applied); `synthEnv` keys the synthesize
outcome by the request body sent. -/
def ttsHandler (ttsKey : String) (body : TtsBody)
    (voicesEnv : Except String (List Voice))
    (synthEnv : SynthReq → Except String Json) : TtsOut × List TtsCall :=
  let text := trimStr (jsOr body.text "")
  let languageCode := jsOr body.languageCode "en-US"
  let gender := if toUpperStr (jsOr body.gender "FEMALE") = "MALE" then "MALE" else "FEMALE"
  let voiceType := toLowerStr (jsOr body.voiceType "neural")
  if text = "" then (⟨"", some "Please type text for TTS.", none⟩, [])
  else if ttsKey = "" then
    (⟨"", some "Missing GOOGLE_TTS_API_KEY in Railway Variables.", none⟩, [])
  else
    match voicesEnv with
    | .error e => (⟨"", some ("TTS error: " ++ e), none⟩, [.listVoices])
    | .ok voices =>
      match chooseVoice voiceType gender languageCode voices with
      | none =>
        (⟨"", some "No available voice found for this language/gender.", none⟩, [.listVoices])
      | some chosen =>
        if chosen.name = "" then
          (⟨"", some "No available voice found for this language/gender.", none⟩, [.listVoices])
        else
          let req : SynthReq :=
            ⟨sliceStr text 4000, languageCode, chosen.name, gender⟩
          match synthEnv req with
          | .error e =>
            (⟨"", some ("TTS error: " ++ e), none⟩, [.listVoices, .synthesize req])
          | .ok synthData =>
            let audioContent := jstrOr (synthData.getField "audioContent")
            if audioContent = "" then
              (⟨"", some "No audioContent returned from TTS.", none⟩,
               [.listVoices, .synthesize req])
            else
              (⟨"data:audio/mpeg;base64," ++ audioContent, none, some chosen.name⟩,
               [.listVoices, .synthesize req])

/-! ## /tts variant with the name-omitting retry (unnamed part_002) -/

/-- The `voice` object `tryCall` builds: an explicit name only on the first
attempt, and only when the map suggests one. -/
structure VoiceSel where
  languageCode : String
  ssmlGender : String
  name : Option String
deriving DecidableEq

/-- part_002 `voiceNameMap`: guessed voice names per language and gender. -/
def voiceNameMap (languageCode g : String) : Option String :=
  if languageCode = "km-KH" then
    if g = "FEMALE" then some "km-KH-Standard-A"
    else if g = "MALE" then some "km-KH-Standard-B"
    else none
  else if languageCode = "en-US" then
    if g = "FEMALE" then some "en-US-Standard-C"
    else if g = "MALE" then some "en-US-Standard-B"
    else none
  else none

/-- The voice object built by part_002 `tryCall(useName)`. -/
def tryCallVoice (languageCode gender : String) (useName : Bool) : VoiceSel :=
  let g := if gender = "MALE" then "MALE" else "FEMALE"
  if useName then ⟨languageCode, g, voiceNameMap languageCode g⟩
  else ⟨languageCode, g, none⟩

/-- part_002 `fetchJson` result: never throws, parse failures collapse to an
empty object, so the caller branches on `ok`. -/
structure FetchJsonR where
  ok : Bool
  status : Nat
  data : Json

/-- The response envelope of part_002 /tts: only the fields the taken branch
sets are `some`. -/
structure TtsV2Out where
  error : Option String
  languageCode : Option String
  gender : Option String
  audioContent : Option String
deriving DecidableEq

/-- part_002 /tts handler: explicit-name attempt, one name-omitted retry on
failure, combined error carrying languageCode and gender on double failure.
`env` keys the synthesize outcome by the voice object sent (the input text
is fixed across both attempts). -/
def ttsV2Handler (ttsKey : String) (bodyText bodyLang bodyGender : Option String)
    (env : VoiceSel → FetchJsonR) : TtsV2Out × List VoiceSel :=
  let text := trimStr (jsOr bodyText "")
  let lang := trimStr (jsOr bodyLang "km")
  let gender := toUpperStr (trimStr (jsOr bodyGender "FEMALE"))
  if text = "" then (⟨some "Missing text", none, none, none⟩, [])
  else if ttsKey = "" then
    (⟨some "Missing GOOGLE_TTS_API_KEY in Railway Variables.", none, none, none⟩, [])
  else
    let languageCode := if lang = "km" then "km-KH" else "en-US"
    let v1 := tryCallVoice languageCode gender true
    let r1 := env v1
    if r1.ok then
      (⟨none, some languageCode, some gender,
        some (jstrOr (r1.data.getField "audioContent"))⟩, [v1])
    else
      let v2 := tryCallVoice languageCode gender false
      let r2 := env v2
      if r2.ok then
        (⟨none, some languageCode, some gender,
          some (jstrOr (r2.data.getField "audioContent"))⟩, [v1, v2])
      else
        let m2 := jstrOr ((r2.data.getField "error").bind (·.getField "message"))
        let m1 := jstrOr ((r1.data.getField "error").bind (·.getField "message"))
        let msg := if m2 ≠ "" then m2 else if m1 ≠ "" then m1 else "TTS error"
        (⟨some msg, some languageCode, some gender, none⟩, [v1, v2])

/-! ## /chat variant without a credential check (unnamed part_003) -/

/-- The outbound call part_003 /chat makes: the key goes into the URL as-is,
so an unset `GEMINI_KEY` is interpolated as the literal `undefined`. -/
structure P3Call where
  keyParam : String
  userMessage : String
deriving DecidableEq

/-- part_003 /chat handler: no credential check at all; the fetch happens
for every nonempty message.  Reply is
`parts.map(p => p.text).join("") || data?.error?.message || "No response"`. -/
def part003ChatHandler (apiKey : Option String) (message : Option String)
    (env : P3Call → Except String Json) : ChatReply × List P3Call :=
  let userMessage := trimStr (message.getD "")
  if userMessage = "" then (⟨"Please type a message."⟩, [])
  else
    let call : P3Call := ⟨apiKey.getD "undefined", userMessage⟩
    match env call with
    | .error e => (⟨"Server error: " ++ e⟩, [call])
    | .ok data =>
      let s := match chainParts data with
               | none => ""
               | some ps => String.join (ps.map partText)
      let em := jstrOr ((data.getField "error").bind (·.getField "message"))
      (⟨if s ≠ "" then s else if em ≠ "" then em else "No response"⟩, [call])

/-! ## Rate Limiter -/

/-- Modelled from the spec: no rate limiter exists in the sources under
src/; spec section 4.4 describes `admit(clientId)` over a per-client list of
admission timestamps.  `pruneWin` drops timestamps older than 60 seconds
from now. -/
def pruneWin (now : Nat) (win : List Nat) : List Nat :=
  win.filter (fun s => decide (now ≤ s + 60))

/-- Modelled from the spec: one limiter call for one client: prune, then
reject without recording when the remaining count exceeds the threshold,
else record now and let the request through. -/
def admitOne (limit now : Nat) (win : List Nat) : Bool × List Nat :=
  let pruned := pruneWin now win
  if limit < pruned.length then (false, pruned) else (true, now :: pruned)

/-- Run a sequence of `admitOne` calls for one client; returns the final window
and the list of admitted timestamps. -/
def runLimiter (limit : Nat) (win : List Nat) : List Nat → List Nat × List Nat
  | [] => (win, [])
  | now :: rest =>
    let a := admitOne limit now win
    let r := runLimiter limit a.2 rest
    (r.1, if a.1 then now :: r.2 else r.2)

/-- Membership test of a timestamp in the trailing window `[t, t+60]`. -/
def inWindow (t s : Nat) : Bool :=
  decide (t ≤ s) && decide (s ≤ t + 60)

/-! ## Shared fixtures and helper lemmas -/

/-- A chat part `{text: s}`. -/
def mkPart (s : String) : Json := .obj [("text", .str s)]

/-- A single-candidate generateContent response with the given part texts. -/
def mkChatResp (ps : List String) : Json :=
  .obj [("candidates", .arr [.obj [("content", .obj [("parts", .arr (ps.map mkPart))])]])]

theorem partText_mkPart (s : String) : partText (mkPart s) = s := rfl

theorem sliceStr_length_le (s : String) (n : Nat) : (sliceStr s n).length ≤ n := by
  show (s.data.take n).length ≤ n
  exact List.length_take_le n s.data

theorem sliceStr_isPre (s : String) (n : Nat) : (sliceStr s n).data <+: s.data :=
  List.take_prefix n s.data

theorem normalizePrompt_length_le (raw : String) (n : Nat) :
    (normalizePrompt raw n).length ≤ n :=
  sliceStr_length_le _ n

/-! ## Claim C1: Provider Client JSON failure handling -/

/-- A provider response declaring JSON whose body is not valid JSON. -/
def respC1 : HttpResponse :=
  { ok := true, status := 200, contentType := some "application/json",
    text := "<html>", parsed := none }

/-- Claim C1 counterexample: for a response with a JSON content type but a
non-JSON body, `fetchJson` does NOT fail with the bounded-snippet
(MalformedProviderResponse-style) error: the raw `JSON.parse` exception
escapes the invoke boundary. -/
theorem fetchJson_parse_exception_escapes :
    respC1.parsed = none ∧ fetchJson respC1 = .thrownParse := by
  exact ⟨rfl, rfl⟩

/-- Claim C1 (amended): `fetchJson` produces the bounded-snippet error
exactly when the Content-Type header does not declare JSON; the snippet is
then a prefix of the raw text of at most 260 characters.  (When the header
declares JSON but the body does not parse, the raw parse exception escapes,
as the counterexample shows.) -/
theorem fetchJson_nonJson_bounded (r : HttpResponse)
    (h : containsSubstr (toLowerStr (r.contentType.getD "")) "application/json" = false) :
    fetchJson r = .thrownNonJson
        ("Non-JSON response (" ++ toString r.status ++ "). " ++ sliceStr r.text 260)
    ∧ (sliceStr r.text 260).length ≤ 260
    ∧ (sliceStr r.text 260).data <+: r.text.data := by
  refine ⟨?_, sliceStr_length_le r.text 260, sliceStr_isPre r.text 260⟩
  unfold fetchJson
  simp [h]

/-- A concrete HTML-typed response for the C1 witness. -/
def respC1w : HttpResponse :=
  { ok := true, status := 404, contentType := some "text/html",
    text := "<html>oops</html>", parsed := none }

theorem fetchJson_nonJson_bounded_witness :
    containsSubstr (toLowerStr (respC1w.contentType.getD "")) "application/json" = false
    ∧ (fetchJson respC1w = .thrownNonJson
          ("Non-JSON response (" ++ toString respC1w.status ++ "). " ++ sliceStr respC1w.text 260)
       ∧ (sliceStr respC1w.text 260).length ≤ 260
       ∧ (sliceStr respC1w.text 260).data <+: respC1w.text.data) :=
  ⟨by decide, fetchJson_nonJson_bounded respC1w (by decide)⟩

/-! ## Claim C2: exactly one prompt-rewrite retry for /image -/

/-- Whether an outbound /image call is an Imagen synthesis attempt. -/
def ImgCall.isImagen : ImgCall → Bool
  | .imagen _ => true
  | .rewriteReq _ => false

/-- Claim C2: when the first synthesis attempt yields no extractable image
payload, the handler performs exactly one prompt-rewrite retry — the
rewritten prompt capped at 220 characters — and no further attempts: if the
retry also yields no media, the no-media error is returned after exactly two
synthesis calls. -/
theorem image_single_rewrite_retry (cfg : ImageConfig) (body : ImageBody)
    (synthEnv rwEnv : String → Except String Json) (d1 dr d2 : Json)
    (hkey : cfg.geminiKey ≠ "")
    (hprompt : normalizePrompt (body.prompt.getD "") 900 ≠ "")
    (h1 : synthEnv (normalizePrompt (body.prompt.getD "") 900) = .ok d1)
    (hb1 : extractImageB64 d1 = "")
    (hr : rwEnv (normalizePrompt (body.prompt.getD "") 900) = .ok dr)
    (h2 : synthEnv (normalizePrompt (rewriteText dr) 220) = .ok d2)
    (hb2 : extractImageB64 d2 = "") :
    imageHandler cfg body synthEnv rwEnv =
      (⟨"", some noMediaMsg⟩,
       [.imagen (normalizePrompt (body.prompt.getD "") 900),
        .rewriteReq (normalizePrompt (body.prompt.getD "") 900),
        .imagen (normalizePrompt (rewriteText dr) 220)])
    ∧ ((imageHandler cfg body synthEnv rwEnv).2.countP ImgCall.isImagen) = 2
    ∧ (normalizePrompt (rewriteText dr) 220).length ≤ 220 := by
  have e : imageHandler cfg body synthEnv rwEnv =
      (⟨"", some noMediaMsg⟩,
       [.imagen (normalizePrompt (body.prompt.getD "") 900),
        .rewriteReq (normalizePrompt (body.prompt.getD "") 900),
        .imagen (normalizePrompt (rewriteText dr) 220)]) := by
    unfold imageHandler rewriteImagePrompt
    simp only [if_neg hkey, if_neg hprompt, h1, hr, h2, hb1, hb2]
    simp
  refine ⟨e, ?_, normalizePrompt_length_le _ 220⟩
  rw [e]
  rfl

def imgSynthEnvW : String → Except String Json := fun _ => .ok .null

def imgRwEnvW : String → Except String Json := fun _ => .ok (mkChatResp ["cat"])

theorem image_single_rewrite_retry_witness :
    (ImageConfig.mk "k").geminiKey ≠ ""
    ∧ normalizePrompt ((ImageBody.mk (some "a cat") none).prompt.getD "") 900 ≠ ""
    ∧ imgSynthEnvW (normalizePrompt ((ImageBody.mk (some "a cat") none).prompt.getD "") 900) = .ok .null
    ∧ extractImageB64 .null = ""
    ∧ imgRwEnvW (normalizePrompt ((ImageBody.mk (some "a cat") none).prompt.getD "") 900) = .ok (mkChatResp ["cat"])
    ∧ imgSynthEnvW (normalizePrompt (rewriteText (mkChatResp ["cat"])) 220) = .ok .null
    ∧ extractImageB64 .null = ""
    ∧ (imageHandler (ImageConfig.mk "k") (ImageBody.mk (some "a cat") none) imgSynthEnvW imgRwEnvW =
        (⟨"", some noMediaMsg⟩,
         [.imagen (normalizePrompt ((ImageBody.mk (some "a cat") none).prompt.getD "") 900),
          .rewriteReq (normalizePrompt ((ImageBody.mk (some "a cat") none).prompt.getD "") 900),
          .imagen (normalizePrompt (rewriteText (mkChatResp ["cat"])) 220)])
       ∧ ((imageHandler (ImageConfig.mk "k") (ImageBody.mk (some "a cat") none) imgSynthEnvW imgRwEnvW).2.countP ImgCall.isImagen) = 2
       ∧ (normalizePrompt (rewriteText (mkChatResp ["cat"])) 220).length ≤ 220) :=
  ⟨by decide, by decide, rfl, rfl, rfl, rfl, rfl,
   image_single_rewrite_retry (ImageConfig.mk "k") (ImageBody.mk (some "a cat") none)
     imgSynthEnvW imgRwEnvW .null (mkChatResp ["cat"]) .null
     (by decide) (by decide) rfl rfl rfl rfl rfl⟩

/-! ## Claim C3: no chat model fallback exists in the handler -/

/-- A realistic model-not-found failure message. -/
def nfMsg : String :=
  "models/gemini-2.5-flash is not found for API version v1beta, or is not supported for generateContent."

def goodChatData : Json := mkChatResp ["Hi there"]

/-- An environment in which the primary model fails with a model-not-found
message while every other model id would succeed. -/
def cexChatEnv : ChatCall → Except String Json :=
  fun c => if c.model = "gemini-2.5-flash" then .error nfMsg else .ok goodChatData

def cexChatCfg : ChatConfig := ⟨"k", "gemini-2.5-flash"⟩

def cexChatBody : ChatBody := ⟨some "hello", none⟩

/-- Claim C3 counterexample: the /chat handler has no fallback model list.
With the primary model failing on a model-not-found message and a fallback
model id (here gemini-2.0-flash) that would reply "Hi there", the handler
surfaces the first model's error after exactly one outbound call instead of
any fallback reply. -/
theorem chat_no_fallback_cex :
    (chatHandler cexChatCfg cexChatBody cexChatEnv).1.reply = "Server error: " ++ nfMsg
    ∧ (chatHandler cexChatCfg cexChatBody cexChatEnv).2.length = 1
    ∧ containsSubstr nfMsg "is not found" = true
    ∧ cexChatEnv ⟨"gemini-2.0-flash", buildContents [] "hello"⟩ = .ok goodChatData
    ∧ extractReply goodChatData = "Hi there" :=
  ⟨by decide, by decide, by decide, rfl, by decide⟩

/-- Claim C3 (amended): the /chat handler performs no model fallback.  Any
`fetchJson` failure — model-not-found messages included — is surfaced as
"Server error: " plus the message after a single outbound call to the
configured primary model. -/
theorem chat_error_surfaced_single_call (cfg : ChatConfig) (body : ChatBody)
    (env : ChatCall → Except String Json) (e : String)
    (hmsg : trimStr (body.message.getD "") ≠ "")
    (hkey : cfg.geminiKey ≠ "")
    (henv : env ⟨cfg.chatModel,
        buildContents (body.history.getD []) (trimStr (body.message.getD ""))⟩ = .error e) :
    chatHandler cfg body env =
      (⟨"Server error: " ++ e⟩,
       [⟨cfg.chatModel,
         buildContents (body.history.getD []) (trimStr (body.message.getD ""))⟩]) := by
  unfold chatHandler
  simp only [if_neg hmsg, if_neg hkey, henv]

theorem chat_error_surfaced_single_call_witness :
    trimStr ((ChatBody.mk (some "hello") none).message.getD "") ≠ ""
    ∧ cexChatCfg.geminiKey ≠ ""
    ∧ cexChatEnv ⟨cexChatCfg.chatModel,
        buildContents (((ChatBody.mk (some "hello") none)).history.getD [])
          (trimStr ((ChatBody.mk (some "hello") none).message.getD ""))⟩ = .error nfMsg
    ∧ chatHandler cexChatCfg (ChatBody.mk (some "hello") none) cexChatEnv =
        (⟨"Server error: " ++ nfMsg⟩,
         [⟨cexChatCfg.chatModel,
           buildContents (((ChatBody.mk (some "hello") none)).history.getD [])
             (trimStr ((ChatBody.mk (some "hello") none).message.getD ""))⟩]) :=
  ⟨by decide, by decide, rfl,
   chat_error_surfaced_single_call cexChatCfg (ChatBody.mk (some "hello") none)
     cexChatEnv nfMsg (by decide) (by decide) rfl⟩

/-! ## Claim C4: sliding-window admission bound -/

theorem mem_of_mem_runAdmit (limit : Nat) :
    ∀ (calls : List Nat) (win : List Nat) (s : Nat),
      s ∈ (runLimiter limit win calls).2 → s ∈ calls := by
  intro calls
  induction calls with
  | nil => intro win s h; simp [runLimiter] at h
  | cons now rest ih =>
    intro win s h
    simp only [runLimiter] at h
    by_cases ha : (admitOne limit now win).1 = true
    · rw [if_pos ha] at h
      rcases List.mem_cons.mp h with h | h
      · exact h ▸ List.mem_cons_self now rest
      · exact List.mem_cons_of_mem now (ih _ s h)
    · rw [if_neg ha] at h
      exact List.mem_cons_of_mem now (ih _ s h)

/-- Pruning at a time still inside the trailing window keeps every
timestamp at or after the window start. -/
theorem filter_pruneWin_eq (now t : Nat) (win : List Nat) (hnow : now ≤ t + 60) :
    (pruneWin now win).filter (fun w => decide (t ≤ w))
      = win.filter (fun w => decide (t ≤ w)) := by
  unfold pruneWin
  rw [List.filter_filter]
  apply List.filter_congr
  intro a _
  by_cases h : t ≤ a
  · have h2 : now ≤ a + 60 := by omega
    simp [h, h2]
  · simp [h]

/-- Inductive core: over a nondecreasing call trace, the number of admitted
timestamps inside `[t, t+60]` plus the window timestamps already at or after
`t` never passes `limit + 1`. -/
theorem runAdmit_filter_le (limit t : Nat) :
    ∀ (calls : List Nat), calls.Sorted (· ≤ ·) → ∀ (win : List Nat),
      ((runLimiter limit win calls).2.filter (inWindow t)).length
        ≤ (limit + 1) - (win.filter (fun w => decide (t ≤ w))).length := by
  intro calls
  induction calls with
  | nil => intro _ win; simp [runLimiter]
  | cons now rest ih =>
    intro hsort win
    have hrest : rest.Sorted (· ≤ ·) := (List.sorted_cons.mp hsort).2
    have hlb : ∀ b ∈ rest, now ≤ b := (List.sorted_cons.mp hsort).1
    simp only [runLimiter]
    by_cases hnow : now ≤ t + 60
    · -- the pruning at `now` cannot touch timestamps at or after `t`
      by_cases hadm : limit < (pruneWin now win).length
      · -- rejected: nothing recorded, window replaced by the pruned list
        rw [admitOne, if_pos hadm]
        simp only [Bool.false_eq_true, if_false]
        calc ((runLimiter limit (pruneWin now win) rest).2.filter (inWindow t)).length
            ≤ (limit + 1) - ((pruneWin now win).filter (fun w => decide (t ≤ w))).length :=
              ih hrest (pruneWin now win)
          _ = (limit + 1) - (win.filter (fun w => decide (t ≤ w))).length := by
              rw [filter_pruneWin_eq now t win hnow]
      · -- admitted: now is recorded
        rw [admitOne, if_neg hadm]
        simp only [if_true]
        have hcount : ((now :: pruneWin now win).filter
            (fun w => decide (t ≤ w))).length
              = (if t ≤ now then 1 else 0)
                + (win.filter (fun w => decide (t ≤ w))).length := by
          by_cases htn : t ≤ now
          · rw [List.filter_cons_of_pos (by simpa using htn),
              filter_pruneWin_eq now t win hnow]
            simp only [htn, if_true, List.length_cons]
            omega
          · rw [List.filter_cons_of_neg (by simpa using htn),
              filter_pruneWin_eq now t win hnow]
            simp [htn]
        have ihb := ih hrest (now :: pruneWin now win)
        rw [hcount] at ihb
        have hwf : (win.filter (fun w => decide (t ≤ w))).length
            ≤ (pruneWin now win).length := by
          rw [← filter_pruneWin_eq now t win hnow]
          exact List.length_filter_le _ _
        by_cases htn : t ≤ now
        · rw [List.filter_cons_of_pos (by simp [inWindow]; omega)]
          simp only [htn, if_true] at ihb
          simp only [List.length_cons]
          omega
        · rw [List.filter_cons_of_neg (by simp [inWindow]; omega)]
          simp only [htn, if_false] at ihb
          omega
    · -- the window is already closed: no later call can land inside it
      have hnil : ∀ (w2 : List Nat),
          (runLimiter limit w2 rest).2.filter (inWindow t) = [] := by
        intro w2
        rw [List.filter_eq_nil_iff]
        intro a ha
        have hmem := mem_of_mem_runAdmit limit rest w2 a ha
        have := hlb a hmem
        simp [inWindow]
        omega
      by_cases hadm : limit < (pruneWin now win).length
      · rw [admitOne, if_pos hadm]
        simp [hnil]
      · rw [admitOne, if_neg hadm]
        simp only [if_true]
        rw [List.filter_cons_of_neg (by simp [inWindow]; omega)]
        simp [hnil]

/-- Claim C4: the limiter prunes timestamps older than 60 seconds before
the count check, rejects without recording when the remaining count exceeds
the threshold, records the current timestamp otherwise — and consequently a
sorted call trace for one client never gets more than `limit + 1`
admissions recorded inside any trailing 60-second window. -/
theorem rateLimiter_window_bound (limit t now : Nat) (win : List Nat)
    (calls : List Nat) (hsort : calls.Sorted (· ≤ ·)) :
    (limit < (pruneWin now win).length → admitOne limit now win = (false, pruneWin now win))
    ∧ (¬ limit < (pruneWin now win).length → admitOne limit now win = (true, now :: pruneWin now win))
    ∧ ((runLimiter limit [] calls).2.filter (inWindow t)).length ≤ limit + 1 := by
  refine ⟨fun h => by rw [admitOne, if_pos h], fun h => by rw [admitOne, if_neg h], ?_⟩
  have h := runAdmit_filter_le limit t calls hsort []
  simpa using h

theorem rateLimiter_window_bound_witness :
    List.Sorted (· ≤ ·) [0, 10, 20, 70] ∧
    ((20 < (pruneWin 100 [50]).length → admitOne 20 100 [50] = (false, pruneWin 100 [50]))
     ∧ (¬ 20 < (pruneWin 100 [50]).length → admitOne 20 100 [50] = (true, 100 :: pruneWin 100 [50]))
     ∧ (((runLimiter 20 [] [0, 10, 20, 70]).2.filter (inWindow 0)).length ≤ 21)) :=
  ⟨by decide, rateLimiter_window_bound 20 0 100 [50] [0, 10, 20, 70] (by decide)⟩

/-! ## Claim C5: chat reply normalization -/

/-- A response whose first candidate has no text but whose second does. -/
def twoCandResp : Json :=
  .obj [("candidates", .arr
    [.obj [("content", .obj [("parts", .arr [])])],
     .obj [("content", .obj [("parts", .arr [mkPart "world"])])]])]

/-- Claim C5 counterexample: the extraction reads only `candidates[0]`.  On
a response whose text fragments along the candidates/content/parts paths
are exactly ["world"] (in the second candidate), it returns the sentinel
instead of their concatenation. -/
theorem extractReply_first_candidate_only_cex :
    extractReply twoCandResp = "No response"
    ∧ specAllFragments twoCandResp = "world"
    ∧ ("No response" : String) ≠ "world" :=
  ⟨by decide, by decide, by decide⟩

/-- Claim C5 (amended): the normalizer concatenates, in document order, the
text fragments of the FIRST candidate's content.parts and trims the result
— parts ["Hello, ", "world"] yield exactly "Hello, world" — and when that
path yields no text (or only whitespace) it returns the fixed sentinel
"No response" rather than failing. -/
theorem extractReply_first_candidate (ps : List String) :
    extractReply (mkChatResp ps) =
      (if trimStr (String.join ps) = "" then "No response"
       else trimStr (String.join ps))
    ∧ extractReply (mkChatResp ["Hello, ", "world"]) = "Hello, world" := by
  constructor
  · have hmap : (ps.map mkPart).map partText = ps := by
      rw [List.map_map]
      simp only [Function.comp_def, partText_mkPart, List.map_id']
    have hchain : chainParts (mkChatResp ps) = some (ps.map mkPart) := rfl
    unfold extractReply
    rw [hchain]
    dsimp only
    rw [hmap]
  · decide

/-! ## Claim C6: voice selection preference -/

/-- The option holds a voice drawn from the given list. -/
def optionIn (o : Option Voice) (l : List Voice) : Prop :=
  ∃ v, o = some v ∧ v ∈ l

theorem findOrHead_mem (pr : Voice → Bool) (arr : List Voice) (h : arr ≠ []) :
    optionIn ((arr.find? pr).orElse (fun _ => arr.head?)) arr := by
  cases hf : arr.find? pr with
  | some v =>
    exact ⟨v, rfl, List.mem_of_find?_eq_some hf⟩
  | none =>
    cases arr with
    | nil => exact absurd rfl h
    | cons a l => exact ⟨a, rfl, List.mem_cons_self a l⟩

theorem preferStandard_mem (arr : List Voice) (h : arr ≠ []) :
    optionIn (preferStandard arr) arr :=
  findOrHead_mem _ arr h

theorem preferNeural_mem (arr : List Voice) (h : arr ≠ []) :
    optionIn (preferNeural arr) arr :=
  findOrHead_mem _ arr h

theorem preferStandard_nil : preferStandard [] = none := rfl

theorem preferNeural_nil : preferNeural [] = none := rfl

/-- When a non-premium voice is available, `preferStandard` picks a
non-premium one. -/
theorem preferStandard_picks_standard (arr : List Voice) (q : Voice)
    (hq : q ∈ arr) (hqn : isNeural q.name = false) :
    ∃ v, preferStandard arr = some v ∧ isNeural v.name = false := by
  have hsome : (arr.find? (fun v => ! isNeural v.name)).isSome :=
    List.find?_isSome.mpr ⟨q, hq, by simp [hqn]⟩
  obtain ⟨v, hv⟩ := Option.isSome_iff_exists.mp hsome
  have hpred := @List.find?_some Voice (fun v => ! isNeural v.name) v arr hv
  refine ⟨v, ?_, by simpa using hpred⟩
  unfold preferStandard
  rw [hv]
  rfl

/-- Claim C6: with voice type "standard" and a catalog holding, for the
requested language and gender, both a premium-pattern (Neural2/Wavenet)
voice and a non-premium one, the non-premium voice is selected; and for
any voice type the selection prefers a language+gender match, then a
language-only match, then any available voice. -/
theorem standard_voice_selected (gender languageCode : String)
    (voices : List Voice) (p q : Voice)
    (hp : p ∈ voicesByLangGender voices languageCode gender)
    (hpn : isNeural p.name = true)
    (hq : q ∈ voicesByLangGender voices languageCode gender)
    (hqn : isNeural q.name = false) :
    (∃ v, chooseVoice "standard" gender languageCode voices = some v
        ∧ isNeural v.name = false
        ∧ v ∈ voicesByLangGender voices languageCode gender)
    ∧ (∀ vt g lc (vs : List Voice),
        (voicesByLangGender vs lc g ≠ [] →
          optionIn (chooseVoice vt g lc vs) (voicesByLangGender vs lc g))
        ∧ (voicesByLangGender vs lc g = [] → voicesByLang vs lc ≠ [] →
          optionIn (chooseVoice vt g lc vs) (voicesByLang vs lc))
        ∧ (voicesByLangGender vs lc g = [] → voicesByLang vs lc = [] → vs ≠ [] →
          optionIn (chooseVoice vt g lc vs) vs)) := by
  constructor
  · obtain ⟨v, hv, hvn⟩ :=
      preferStandard_picks_standard (voicesByLangGender voices languageCode gender) q hq hqn
    refine ⟨v, ?_, hvn, ?_⟩
    · unfold chooseVoice
      rw [if_pos rfl, hv]
      rfl
    · obtain ⟨w, hw, hwm⟩ :=
        preferStandard_mem (voicesByLangGender voices languageCode gender)
          (List.ne_nil_of_mem hq)
      rw [hv] at hw
      exact (Option.some_inj.mp hw) ▸ hwm
  · intro vt g lc vs
    by_cases hstd : vt = "standard"
    all_goals refine ⟨?_, ?_, ?_⟩
    · intro h1
      obtain ⟨v, hv, hvm⟩ := preferStandard_mem _ h1
      refine ⟨v, ?_, hvm⟩
      unfold chooseVoice
      rw [if_pos hstd, hv]
      rfl
    · intro h1 h2
      obtain ⟨v, hv, hvm⟩ := preferStandard_mem _ h2
      refine ⟨v, ?_, hvm⟩
      unfold chooseVoice
      rw [if_pos hstd, h1, preferStandard_nil, hv]
      rfl
    · intro h1 h2 h3
      obtain ⟨v, hv, hvm⟩ := preferStandard_mem _ h3
      refine ⟨v, ?_, hvm⟩
      unfold chooseVoice
      rw [if_pos hstd, h1, h2, preferStandard_nil, hv]
      rfl
    · intro h1
      obtain ⟨v, hv, hvm⟩ := preferNeural_mem _ h1
      refine ⟨v, ?_, hvm⟩
      unfold chooseVoice
      rw [if_neg hstd, hv]
      rfl
    · intro h1 h2
      obtain ⟨v, hv, hvm⟩ := preferNeural_mem _ h2
      refine ⟨v, ?_, hvm⟩
      unfold chooseVoice
      rw [if_neg hstd, h1, preferNeural_nil, hv]
      rfl
    · intro h1 h2 h3
      obtain ⟨v, hv, hvm⟩ := preferNeural_mem _ h3
      refine ⟨v, ?_, hvm⟩
      unfold chooseVoice
      rw [if_neg hstd, h1, h2, preferNeural_nil, hv]
      rfl

def vStdW : Voice := ⟨"en-US-Standard-B", ["en-US"], "MALE"⟩

def vNeuW : Voice := ⟨"en-US-Neural2-D", ["en-US"], "MALE"⟩

theorem standard_voice_selected_witness :
    vNeuW ∈ voicesByLangGender [vNeuW, vStdW] "en-US" "MALE"
    ∧ isNeural vNeuW.name = true
    ∧ vStdW ∈ voicesByLangGender [vNeuW, vStdW] "en-US" "MALE"
    ∧ isNeural vStdW.name = false
    ∧ ((∃ v, chooseVoice "standard" "MALE" "en-US" [vNeuW, vStdW] = some v
          ∧ isNeural v.name = false
          ∧ v ∈ voicesByLangGender [vNeuW, vStdW] "en-US" "MALE")
       ∧ (∀ vt g lc (vs : List Voice),
          (voicesByLangGender vs lc g ≠ [] →
            optionIn (chooseVoice vt g lc vs) (voicesByLangGender vs lc g))
          ∧ (voicesByLangGender vs lc g = [] → voicesByLang vs lc ≠ [] →
            optionIn (chooseVoice vt g lc vs) (voicesByLang vs lc))
          ∧ (voicesByLangGender vs lc g = [] → voicesByLang vs lc = [] → vs ≠ [] →
            optionIn (chooseVoice vt g lc vs) vs))) :=
  ⟨by decide, by decide, by decide, by decide,
   standard_voice_selected "MALE" "en-US" [vNeuW, vStdW] vNeuW vStdW
     (by decide) (by decide) (by decide) (by decide)⟩

/-! ## Claim C7: explicit-voice failure retried once without a name -/

def c7ServerVoices : List Voice := [⟨"en-US-Neural2-D", ["en-US"], "MALE"⟩]

def c7FailSynthEnv : SynthReq → Except String Json := fun _ => .error "boom"

/-- Claim C7 counterexample: in server.js /tts the synthesis attempt always
carries the chosen explicit voice name, and when it fails there is NO
name-omitted retry: the error is surfaced after a single synthesis call,
without the language code and gender. -/
theorem tts_server_no_retry_cex :
    ttsHandler "tk" ⟨some "hi", some "en-US", some "MALE", none⟩
        (.ok c7ServerVoices) c7FailSynthEnv
      = (⟨"", some "TTS error: boom", none⟩,
         [.listVoices, .synthesize ⟨"hi", "en-US", "en-US-Neural2-D", "MALE"⟩])
    ∧ ((ttsHandler "tk" ⟨some "hi", some "en-US", some "MALE", none⟩
        (.ok c7ServerVoices) c7FailSynthEnv).2.countP
          (fun c => match c with | .synthesize _ => true | _ => false)) = 1 :=
  ⟨by decide, by decide⟩

/-- Claim C7 (amended): in the variant that implements the TTS retry
(unnamed part_002), when the synthesis attempt carrying an explicit voice
name fails, the handler retries exactly once with the name omitted (the
trace holds exactly those two calls) and, if the retry also fails, the
surfaced error carries the requested language code and gender.  (server.js
/tts performs no such retry, as the counterexample shows.) -/
theorem ttsV2_retry_nameless (ttsKey : String)
    (bodyText bodyLang bodyGender : Option String)
    (env : VoiceSel → FetchJsonR) (languageCode gender : String)
    (hlc : languageCode = (if trimStr (jsOr bodyLang "km") = "km" then "km-KH" else "en-US"))
    (hg : gender = toUpperStr (trimStr (jsOr bodyGender "FEMALE")))
    (htext : trimStr (jsOr bodyText "") ≠ "")
    (hkey : ttsKey ≠ "")
    (h1 : (env (tryCallVoice languageCode gender true)).ok = false) :
    (ttsV2Handler ttsKey bodyText bodyLang bodyGender env).2
        = [tryCallVoice languageCode gender true, tryCallVoice languageCode gender false]
    ∧ (tryCallVoice languageCode gender false).name = none
    ∧ ((env (tryCallVoice languageCode gender false)).ok = false →
        (ttsV2Handler ttsKey bodyText bodyLang bodyGender env).1.languageCode = some languageCode
        ∧ (ttsV2Handler ttsKey bodyText bodyLang bodyGender env).1.gender = some gender
        ∧ (ttsV2Handler ttsKey bodyText bodyLang bodyGender env).1.audioContent = none
        ∧ (ttsV2Handler ttsKey bodyText bodyLang bodyGender env).1.error ≠ none) := by
  subst hlc hg
  unfold ttsV2Handler
  simp only [if_neg htext, if_neg hkey]
  rw [Bool.eq_false_iff] at h1
  by_cases h2 : (env (tryCallVoice
      (if trimStr (jsOr bodyLang "km") = "km" then "km-KH" else "en-US")
      (toUpperStr (trimStr (jsOr bodyGender "FEMALE"))) false)).ok = true
  · refine ⟨by simp [h1, h2], by simp [tryCallVoice], ?_⟩
    intro hc
    rw [hc] at h2
    simp at h2
  · refine ⟨by simp [h1, h2], by simp [tryCallVoice], ?_⟩
    intro _
    simp [h1, h2]

def ttsV2EnvFailW : VoiceSel → FetchJsonR :=
  fun _ => ⟨false, 400, .obj [("error", .obj [("message", .str "bad voice")])]⟩

theorem ttsV2_retry_nameless_witness :
    ("en-US" : String) = (if trimStr (jsOr (some "en") "km") = "km" then "km-KH" else "en-US")
    ∧ ("MALE" : String) = toUpperStr (trimStr (jsOr (some "male") "FEMALE"))
    ∧ trimStr (jsOr (some "hi") "") ≠ ""
    ∧ ("tk" : String) ≠ ""
    ∧ (ttsV2EnvFailW (tryCallVoice "en-US" "MALE" true)).ok = false
    ∧ ((ttsV2Handler "tk" (some "hi") (some "en") (some "male") ttsV2EnvFailW).2
          = [tryCallVoice "en-US" "MALE" true, tryCallVoice "en-US" "MALE" false]
       ∧ (tryCallVoice "en-US" "MALE" false).name = none
       ∧ ((ttsV2EnvFailW (tryCallVoice "en-US" "MALE" false)).ok = false →
          (ttsV2Handler "tk" (some "hi") (some "en") (some "male") ttsV2EnvFailW).1.languageCode = some "en-US"
          ∧ (ttsV2Handler "tk" (some "hi") (some "en") (some "male") ttsV2EnvFailW).1.gender = some "MALE"
          ∧ (ttsV2Handler "tk" (some "hi") (some "en") (some "male") ttsV2EnvFailW).1.audioContent = none
          ∧ (ttsV2Handler "tk" (some "hi") (some "en") (some "male") ttsV2EnvFailW).1.error ≠ none)) :=
  ⟨by decide, by decide, by decide, by decide, rfl,
   ttsV2_retry_nameless "tk" (some "hi") (some "en") (some "male") ttsV2EnvFailW
     "en-US" "MALE" (by decide) (by decide) (by decide) (by decide) rfl⟩

/-! ## Claim C8: empty input short-circuits -/

def nullEnvStr : String → Except String Json := fun _ => .ok .null

def nullEnvChat : ChatCall → Except String Json := fun _ => .ok .null

def nullEnvSynth : SynthReq → Except String Json := fun _ => .ok .null

/-- Claim C8 counterexample: /image checks the credential before the
prompt, so an empty-prompt request with GEMINI_KEY unset gets the
missing-credential message, not the please-type-a-prompt message (no
outbound call is made either way). -/
theorem image_empty_prompt_missing_key_cex :
    imageHandler ⟨""⟩ ⟨some "   ", none⟩ nullEnvStr nullEnvStr
      = (⟨"", some "Missing GEMINI_KEY in server variables."⟩, [])
    ∧ ("Missing GEMINI_KEY in server variables." : String) ≠ "Please type a prompt." :=
  ⟨by decide, by decide⟩

/-- Claim C8 (amended): an empty or whitespace-only message/text/prompt
short-circuits /chat, /tts and /image before any outbound provider call,
with the designated please-provide-input message — except that /image
checks the GEMINI_KEY credential first, so with the key unset the
missing-credential message is returned instead (still with no outbound
call). -/
theorem empty_input_short_circuit
    (ccfg : ChatConfig) (cbody : ChatBody) (cenv : ChatCall → Except String Json)
    (tkey : String) (tbody : TtsBody) (tvoices : Except String (List Voice))
    (tsynth : SynthReq → Except String Json)
    (icfg : ImageConfig) (ibody : ImageBody) (isynth irw : String → Except String Json)
    (hc : trimStr (cbody.message.getD "") = "")
    (ht : trimStr (jsOr tbody.text "") = "")
    (hi : normalizePrompt (ibody.prompt.getD "") 900 = "") :
    chatHandler ccfg cbody cenv = (⟨"Please type a message."⟩, [])
    ∧ ttsHandler tkey tbody tvoices tsynth
        = (⟨"", some "Please type text for TTS.", none⟩, [])
    ∧ (imageHandler icfg ibody isynth irw).2 = []
    ∧ (icfg.geminiKey ≠ "" →
        imageHandler icfg ibody isynth irw = (⟨"", some "Please type a prompt."⟩, [])) := by
  refine ⟨?_, ?_, ?_, ?_⟩
  · unfold chatHandler
    simp [hc]
  · unfold ttsHandler
    simp [ht]
  · unfold imageHandler
    by_cases hk : icfg.geminiKey = ""
    · simp [hk]
    · simp [hk, hi]
  · intro hk
    unfold imageHandler
    simp [hk, hi]

theorem empty_input_short_circuit_witness :
    trimStr ((ChatBody.mk (some "  ") none).message.getD "") = ""
    ∧ trimStr (jsOr (TtsBody.mk (some " ") none none none).text "") = ""
    ∧ normalizePrompt ((ImageBody.mk (some "\t ") none).prompt.getD "") 900 = ""
    ∧ (chatHandler ⟨"k", "m"⟩ (ChatBody.mk (some "  ") none) nullEnvChat
        = (⟨"Please type a message."⟩, [])
      ∧ ttsHandler "tk" (TtsBody.mk (some " ") none none none) (.ok []) nullEnvSynth
        = (⟨"", some "Please type text for TTS.", none⟩, [])
      ∧ (imageHandler ⟨"k"⟩ (ImageBody.mk (some "\t ") none) nullEnvStr nullEnvStr).2 = []
      ∧ ((ImageConfig.mk "k").geminiKey ≠ "" →
          imageHandler ⟨"k"⟩ (ImageBody.mk (some "\t ") none) nullEnvStr nullEnvStr
            = (⟨"", some "Please type a prompt."⟩, []))) :=
  ⟨by decide, by decide, by decide,
   empty_input_short_circuit ⟨"k", "m"⟩ (ChatBody.mk (some "  ") none) nullEnvChat
     "tk" (TtsBody.mk (some " ") none none none) (.ok []) nullEnvSynth
     ⟨"k"⟩ (ImageBody.mk (some "\t ") none) nullEnvStr nullEnvStr
     (by decide) (by decide) (by decide)⟩

/-! ## Claim C9: missing-credential fail-fast (violated by part_003) -/

/-- A provider error body of the kind Google returns for a bad key. -/
def p3ErrData : Json :=
  .obj [("error", .obj [("message", .str "API key not valid. Please pass a valid API key.")])]

def p3Env : P3Call → Except String Json := fun _ => .ok p3ErrData

/-- Claim C9: evaluation of the part_003 /chat handler at the failing
input.  With GEMINI_KEY unset and a nonempty message, the handler still
performs the outbound provider call — with the literal key parameter
"undefined" — and surfaces the provider's message instead of failing fast
with a missing-credential message. -/
theorem part003_calls_without_key :
    part003ChatHandler none (some "hi") p3Env
      = (⟨"API key not valid. Please pass a valid API key."⟩, [⟨"undefined", "hi"⟩])
    ∧ (part003ChatHandler none (some "hi") p3Env).2.length = 1 :=
  ⟨by decide, by decide⟩

/-! ## Claim C10: silent 4000-character truncation for /tts synthesis -/

/-- Claim C10: when a /tts request reaches the synthesis call, the text
sent is exactly the first 4000 characters of the trimmed input — a prefix
of length at most 4000 — and the handler's entire behaviour depends on the
input text only through that truncated prefix, so overlong input is cut
silently with no error and no indication of truncation in the response. -/
theorem tts_truncates_text_silently (ttsKey : String) (body : TtsBody)
    (voices : List Voice) (chosen : Voice)
    (voicesEnv : Except String (List Voice)) (synthEnv : SynthReq → Except String Json)
    (t2 : Option String)
    (htext : trimStr (jsOr body.text "") ≠ "")
    (hkey : ttsKey ≠ "")
    (hvoices : voicesEnv = .ok voices)
    (hchoose : chooseVoice (toLowerStr (jsOr body.voiceType "neural"))
        (if toUpperStr (jsOr body.gender "FEMALE") = "MALE" then "MALE" else "FEMALE")
        (jsOr body.languageCode "en-US") voices = some chosen)
    (hname : chosen.name ≠ "")
    (htext2 : trimStr (jsOr t2 "") ≠ "")
    (hsame : sliceStr (trimStr (jsOr t2 "")) 4000 = sliceStr (trimStr (jsOr body.text "")) 4000) :
    (ttsHandler ttsKey body voicesEnv synthEnv).2
      = [.listVoices, .synthesize
          ⟨sliceStr (trimStr (jsOr body.text "")) 4000,
           jsOr body.languageCode "en-US", chosen.name,
           (if toUpperStr (jsOr body.gender "FEMALE") = "MALE" then "MALE" else "FEMALE")⟩]
    ∧ (sliceStr (trimStr (jsOr body.text "")) 4000).length ≤ 4000
    ∧ (sliceStr (trimStr (jsOr body.text "")) 4000).data <+: (trimStr (jsOr body.text "")).data
    ∧ ttsHandler ttsKey { body with text := t2 } voicesEnv synthEnv
        = ttsHandler ttsKey body voicesEnv synthEnv := by
  subst hvoices
  refine ⟨?_, sliceStr_length_le _ 4000, sliceStr_isPre _ 4000, ?_⟩
  · unfold ttsHandler
    simp only [if_neg htext, if_neg hkey, hchoose]
    simp only [if_neg hname]
    cases hs : synthEnv ⟨sliceStr (trimStr (jsOr body.text "")) 4000,
        jsOr body.languageCode "en-US", chosen.name,
        (if toUpperStr (jsOr body.gender "FEMALE") = "MALE" then "MALE" else "FEMALE")⟩ with
    | error e => simp [hs]
    | ok d =>
      by_cases hac : jstrOr (d.getField "audioContent") = ""
      · simp [hs, hac]
      · simp [hs, hac]
  · unfold ttsHandler
    simp only [if_neg htext, if_neg htext2]
    rw [hsame]

def c10Voices : List Voice := [⟨"en-US-Neural2-D", ["en-US"], "FEMALE"⟩]

def c10SynthEnv : SynthReq → Except String Json :=
  fun _ => .ok (.obj [("audioContent", .str "AU")])

def c10Body : TtsBody := ⟨some "hi ", none, none, none⟩

theorem tts_truncates_text_silently_witness :
    trimStr (jsOr c10Body.text "") ≠ ""
    ∧ ("tk" : String) ≠ ""
    ∧ (Except.ok c10Voices : Except String (List Voice)) = .ok c10Voices
    ∧ chooseVoice (toLowerStr (jsOr c10Body.voiceType "neural"))
        (if toUpperStr (jsOr c10Body.gender "FEMALE") = "MALE" then "MALE" else "FEMALE")
        (jsOr c10Body.languageCode "en-US") c10Voices = some ⟨"en-US-Neural2-D", ["en-US"], "FEMALE"⟩
    ∧ (Voice.mk "en-US-Neural2-D" ["en-US"] "FEMALE").name ≠ ""
    ∧ trimStr (jsOr (some " hi") "") ≠ ""
    ∧ sliceStr (trimStr (jsOr (some " hi") "")) 4000 = sliceStr (trimStr (jsOr c10Body.text "")) 4000
    ∧ ((ttsHandler "tk" c10Body (.ok c10Voices) c10SynthEnv).2
        = [.listVoices, .synthesize
            ⟨sliceStr (trimStr (jsOr c10Body.text "")) 4000,
             jsOr c10Body.languageCode "en-US", (Voice.mk "en-US-Neural2-D" ["en-US"] "FEMALE").name,
             (if toUpperStr (jsOr c10Body.gender "FEMALE") = "MALE" then "MALE" else "FEMALE")⟩]
      ∧ (sliceStr (trimStr (jsOr c10Body.text "")) 4000).length ≤ 4000
      ∧ (sliceStr (trimStr (jsOr c10Body.text "")) 4000).data <+: (trimStr (jsOr c10Body.text "")).data
      ∧ ttsHandler "tk" { c10Body with text := some " hi" } (.ok c10Voices) c10SynthEnv
          = ttsHandler "tk" c10Body (.ok c10Voices) c10SynthEnv) :=
  ⟨by decide, by decide, rfl, by decide, by decide, by decide, by decide,
   tts_truncates_text_silently "tk" c10Body c10Voices ⟨"en-US-Neural2-D", ["en-US"], "FEMALE"⟩
     (.ok c10Voices) c10SynthEnv (some " hi")
     (by decide) (by decide) rfl (by decide) (by decide) (by decide) (by decide)⟩

end Sak
